import Mathlib

/-!
Verification of the financial projection engine of the business-value
assessment calculator (`bva.py`).  The Python source is embedded shallowly:
every numeric quantity is modelled as a rational number, session-state
lookups become explicit record parameters, and in-place loops become
structural recursion.  Division guards in the source (`x / y if y > 0 else 0`)
are embedded as conditionals, so Lean's total division never masks a
source-level division by zero on a reachable branch.
-/

namespace BVA

/-- Embeds `calculate_benefit_realization_factor` (bva.py): returns the
fraction of benefits realized in a given month under an implementation delay
and a linear ramp-up. -/
def calculate_benefit_realization_factor
    (month implementation_delay_months ramp_up_months : ℚ) : ℚ :=
  if month ≤ implementation_delay_months then 0
  else if month ≤ implementation_delay_months + ramp_up_months then
    (month - implementation_delay_months) / ramp_up_months
  else 1

/-- Embeds `calculate_platform_cost_factor` (bva.py): 1 when the month has
reached the billing start month, 0 before. -/
def calculate_platform_cost_factor (month billing_start_month : ℚ) : ℚ :=
  if billing_start_month ≤ month then 1 else 0

/-- Result record of the three cost-allocation functions: cost per unit of
work, total allocated handling cost, utilization of allocated time, and
working hours per FTE per year. -/
structure AllocOut where
  cost_per_unit : ℚ
  total_handling_cost : ℚ
  utilization_of_allocated_time : ℚ
  working_hours_per_fte_per_year : ℚ
deriving DecidableEq

/-- Embeds `calculate_alert_costs` (bva.py): FTE-time-percentage based cost
per alert plus the utilization diagnostic. -/
def calculate_alert_costs
    (alert_volume alert_ftes avg_alert_triage_time avg_salary_per_year
     hours_per_day days_per_week weeks_per_year holiday_sick_days
     alert_fte_time_pct : ℚ) : AllocOut :=
  if alert_volume = 0 ∨ alert_ftes = 0 then ⟨0, 0, 0, 0⟩
  else
    let total_alert_time_hours_per_year := alert_volume * avg_alert_triage_time / 60
    let total_working_days := weeks_per_year * days_per_week - holiday_sick_days
    let working_hours_per_fte_per_year := total_working_days * hours_per_day
    let total_available_fte_hours := alert_ftes * working_hours_per_fte_per_year
    let total_allocated_fte_hours := total_available_fte_hours * (alert_fte_time_pct / 100)
    let utilization_of_allocated_time :=
      if 0 < total_allocated_fte_hours then
        total_alert_time_hours_per_year / total_allocated_fte_hours
      else 0
    let total_fte_cost := alert_ftes * avg_salary_per_year
    let total_alert_handling_cost := total_fte_cost * (alert_fte_time_pct / 100)
    let cost_per_alert :=
      if 0 < alert_volume then total_alert_handling_cost / alert_volume else 0
    ⟨cost_per_alert, total_alert_handling_cost, utilization_of_allocated_time,
      working_hours_per_fte_per_year⟩

/-- Embeds `calculate_incident_costs` (bva.py): same allocation scheme as
`calculate_alert_costs`, applied to the incident workload. -/
def calculate_incident_costs
    (incident_volume incident_ftes avg_incident_triage_time avg_salary_per_year
     hours_per_day days_per_week weeks_per_year holiday_sick_days
     incident_fte_time_pct : ℚ) : AllocOut :=
  if incident_volume = 0 ∨ incident_ftes = 0 then ⟨0, 0, 0, 0⟩
  else
    let total_incident_time_hours_per_year := incident_volume * avg_incident_triage_time / 60
    let total_working_days := weeks_per_year * days_per_week - holiday_sick_days
    let working_hours_per_fte_per_year := total_working_days * hours_per_day
    let total_available_fte_hours := incident_ftes * working_hours_per_fte_per_year
    let total_allocated_fte_hours := total_available_fte_hours * (incident_fte_time_pct / 100)
    let utilization_of_allocated_time :=
      if 0 < total_allocated_fte_hours then
        total_incident_time_hours_per_year / total_allocated_fte_hours
      else 0
    let total_fte_cost := incident_ftes * avg_salary_per_year
    let total_incident_handling_cost := total_fte_cost * (incident_fte_time_pct / 100)
    let cost_per_incident :=
      if 0 < incident_volume then total_incident_handling_cost / incident_volume else 0
    ⟨cost_per_incident, total_incident_handling_cost, utilization_of_allocated_time,
      working_hours_per_fte_per_year⟩

/-- Embeds `calculate_asset_discovery_costs` (bva.py): cost per manual
discovery cycle under the same FTE-time allocation scheme. -/
def calculate_asset_discovery_costs
    (asset_volume manual_discovery_cycles_per_year hours_per_discovery_cycle
     asset_management_ftes avg_asset_mgmt_fte_salary
     hours_per_day days_per_week weeks_per_year holiday_sick_days
     asset_mgmt_fte_time_pct : ℚ) : AllocOut :=
  if asset_volume = 0 ∨ asset_management_ftes = 0 then ⟨0, 0, 0, 0⟩
  else
    let total_discovery_hours_per_year :=
      manual_discovery_cycles_per_year * hours_per_discovery_cycle
    let total_working_days := weeks_per_year * days_per_week - holiday_sick_days
    let working_hours_per_fte_per_year := total_working_days * hours_per_day
    let total_available_fte_hours := asset_management_ftes * working_hours_per_fte_per_year
    let total_allocated_fte_hours := total_available_fte_hours * (asset_mgmt_fte_time_pct / 100)
    let utilization_of_allocated_time :=
      if 0 < total_allocated_fte_hours then
        total_discovery_hours_per_year / total_allocated_fte_hours
      else 0
    let total_fte_cost := asset_management_ftes * avg_asset_mgmt_fte_salary
    let total_discovery_cost := total_fte_cost * (asset_mgmt_fte_time_pct / 100)
    let cost_per_discovery_cycle :=
      if 0 < manual_discovery_cycles_per_year then
        total_discovery_cost / manual_discovery_cycles_per_year
      else 0
    ⟨cost_per_discovery_cycle, total_discovery_cost, utilization_of_allocated_time,
      working_hours_per_fte_per_year⟩

/-- Embeds the baseline alert savings block of bva.py: alerts avoided by the
reduction percentage. -/
def avoided_alerts (alert_volume alert_reduction_pct : ℚ) : ℚ :=
  alert_volume * (alert_reduction_pct / 100)

/-- Embeds `remaining_alerts` (bva.py): alerts left after reduction. -/
def remaining_alerts (alert_volume alert_reduction_pct : ℚ) : ℚ :=
  alert_volume - avoided_alerts alert_volume alert_reduction_pct

/-- Embeds `alert_reduction_savings` (bva.py). -/
def alert_reduction_savings (alert_volume alert_reduction_pct cost_per_alert : ℚ) : ℚ :=
  avoided_alerts alert_volume alert_reduction_pct * cost_per_alert

/-- Embeds `remaining_alert_handling_cost` (bva.py). -/
def remaining_alert_handling_cost (alert_volume alert_reduction_pct cost_per_alert : ℚ) : ℚ :=
  remaining_alerts alert_volume alert_reduction_pct * cost_per_alert

/-- Embeds `alert_triage_savings` (bva.py): efficiency savings on the
remaining alert handling cost. -/
def alert_triage_savings
    (alert_volume alert_reduction_pct cost_per_alert alert_triage_time_saved_pct : ℚ) : ℚ :=
  remaining_alert_handling_cost alert_volume alert_reduction_pct cost_per_alert *
    (alert_triage_time_saved_pct / 100)

/-- Embeds `avoided_incidents` (bva.py). -/
def avoided_incidents (incident_volume incident_reduction_pct : ℚ) : ℚ :=
  incident_volume * (incident_reduction_pct / 100)

/-- Embeds `remaining_incidents` (bva.py). -/
def remaining_incidents (incident_volume incident_reduction_pct : ℚ) : ℚ :=
  incident_volume - avoided_incidents incident_volume incident_reduction_pct

/-- Embeds `incident_reduction_savings` (bva.py). -/
def incident_reduction_savings
    (incident_volume incident_reduction_pct cost_per_incident : ℚ) : ℚ :=
  avoided_incidents incident_volume incident_reduction_pct * cost_per_incident

/-- Embeds `remaining_incident_handling_cost` (bva.py). -/
def remaining_incident_handling_cost
    (incident_volume incident_reduction_pct cost_per_incident : ℚ) : ℚ :=
  remaining_incidents incident_volume incident_reduction_pct * cost_per_incident

/-- Embeds `incident_triage_savings` (bva.py): efficiency savings on the
remaining incident handling cost. -/
def incident_triage_savings
    (incident_volume incident_reduction_pct cost_per_incident
     incident_triage_time_savings_pct : ℚ) : ℚ :=
  remaining_incident_handling_cost incident_volume incident_reduction_pct cost_per_incident *
    (incident_triage_time_savings_pct / 100)

/-- One year of projected cash flow, mirroring the dictionary appended to
`scenario_cash_flows` in `calculate_scenario_results` (bva.py). -/
structure CashFlowYear where
  year : ℕ
  benefits : ℚ
  platform_cost : ℚ
  services_cost : ℚ
  net_cash_flow : ℚ
  benefit_realization_factor : ℚ
  cost_factor : ℚ
deriving DecidableEq

/-- Embeds `np.mean` on a list of monthly factors: sum divided by length. -/
def npMean (l : List ℚ) : ℚ := l.sum / (l.length : ℚ)

/-- Truncation toward zero of a rational, embedding Python's `int(...)`
conversion applied to the scaled implementation delay. -/
def ratTrunc (q : ℚ) : ℤ := Int.tdiv q.num (q.den : ℤ)

/-- Session-state slice read by `calculate_scenario_results` (bva.py):
`discount_rate_input` is the raw session percentage, divided by 100 inside
the function exactly as the source does. -/
structure SessionFinance where
  total_annual_benefits : ℚ
  implementation_delay : ℚ
  benefits_ramp_up : ℚ
  platform_cost : ℚ
  services_cost : ℚ
  evaluation_years : ℕ
  discount_rate_input : ℚ
deriving DecidableEq

/-- Builds one year's cash-flow entry for a given set of adjusted inputs:
monthly factors over the year's 12 calendar months are averaged and applied,
services cost hits year 1 only.  Mirrors the per-year loop body of
`calculate_scenario_results` (bva.py). -/
def scenarioCashFlowYear
    (scenario_benefits platform_cost services_cost : ℚ)
    (scenario_impl_delay scenario_ramp_up billing_start_month : ℚ)
    (year : ℕ) : CashFlowYear :=
  let months := List.range' ((year - 1) * 12 + 1) 12
  let monthly_benefit_factors := months.map (fun month =>
    calculate_benefit_realization_factor (month : ℚ) scenario_impl_delay scenario_ramp_up)
  let monthly_cost_factors := months.map (fun month =>
    calculate_platform_cost_factor (month : ℚ) billing_start_month)
  let avg_benefit_realization_factor := npMean monthly_benefit_factors
  let avg_cost_factor := npMean monthly_cost_factors
  let year_benefits := scenario_benefits * avg_benefit_realization_factor
  let year_platform_cost := platform_cost * avg_cost_factor
  let year_services_cost := if year = 1 then services_cost else 0
  let year_net_cash_flow := year_benefits - year_platform_cost - year_services_cost
  ⟨year, year_benefits, year_platform_cost, year_services_cost, year_net_cash_flow,
    avg_benefit_realization_factor, avg_cost_factor⟩

/-- Embeds the year-granularity payback loop at the end of
`calculate_scenario_results` (bva.py): accumulate net cash flow year by year
and stop at the first year where the cumulative value is nonnegative;
`none` models the `"N/A"` sentinel. -/
def yearPaybackAux : ℚ → List CashFlowYear → Option ℕ
  | _, [] => none
  | cumulative, cf :: rest =>
      let cumulative' := cumulative + cf.net_cash_flow
      if 0 ≤ cumulative' then some cf.year else yearPaybackAux cumulative' rest

/-- Result record returned by `calculate_scenario_results` (bva.py);
`payback_year` models the `"{year} years"` / `"N/A"` string as an option. -/
structure ScenarioResult where
  npv : ℚ
  roi : ℚ
  payback_year : Option ℕ
  impl_delay : ℤ
  benefits_mult : ℚ
  cash_flows : List CashFlowYear
  annual_benefits : ℚ
deriving DecidableEq

/-- Embeds `calculate_scenario_results` (bva.py): applies the benefit and
delay multipliers, projects yearly cash flows, and computes NPV, ROI (NPV
over the undiscounted sum of platform and services costs, 0 when that sum is
0) and the year-granularity payback. -/
def calculate_scenario_results
    (ss : SessionFinance)
    (benefits_multiplier implementation_delay_multiplier billing_start_month : ℚ) :
    ScenarioResult :=
  let discount_rate := ss.discount_rate_input / 100
  let scenario_benefits := ss.total_annual_benefits * benefits_multiplier
  let scenario_impl_delay : ℤ :=
    max 0 (ratTrunc (ss.implementation_delay * implementation_delay_multiplier))
  let scenario_ramp_up := ss.benefits_ramp_up
  let scenario_cash_flows := (List.range' 1 ss.evaluation_years).map (fun year =>
    scenarioCashFlowYear scenario_benefits ss.platform_cost ss.services_cost
      (scenario_impl_delay : ℚ) scenario_ramp_up billing_start_month year)
  let scenario_npv := (scenario_cash_flows.map (fun cf =>
    cf.net_cash_flow / (1 + discount_rate) ^ cf.year)).sum
  let scenario_tco := (scenario_cash_flows.map (fun cf =>
    cf.platform_cost + cf.services_cost)).sum
  let scenario_roi := if scenario_tco ≠ 0 then scenario_npv / scenario_tco else 0
  let scenario_payback := yearPaybackAux 0 scenario_cash_flows
  ⟨scenario_npv, scenario_roi, scenario_payback, scenario_impl_delay,
    benefits_multiplier, scenario_cash_flows, scenario_benefits⟩

/-- Sum of yearly platform and services costs, each discounted at the given
rate, as the specification's `total_discounted_costs` formula prescribes.
Used to compare the specification's ROI definition against the code's. -/
def total_discounted_costs (cash_flows : List CashFlowYear) (discount_rate : ℚ) : ℚ :=
  (cash_flows.map (fun cf =>
    (cf.platform_cost + cf.services_cost) / (1 + discount_rate) ^ cf.year)).sum

/-- ROI as the specification words it: NPV divided by the discounted total
costs, times 100, with 0 when the denominator is 0. -/
def spec_roi_claimed (r : ScenarioResult) (discount_rate : ℚ) : ℚ :=
  if total_discounted_costs r.cash_flows discount_rate = 0 then 0
  else r.npv / total_discounted_costs r.cash_flows discount_rate * 100

/-- Monthly net cash flow used by the month-granularity payback loop in
`calculate_payback_months` (bva.py). -/
def monthlyNetCashFlow
    (annual_benefits annual_platform_cost implementation_delay_months
     benefits_ramp_up_months billing_start_month : ℚ) (month : ℕ) : ℚ :=
  (annual_benefits / 12) *
      calculate_benefit_realization_factor (month : ℚ) implementation_delay_months
        benefits_ramp_up_months
    - (annual_platform_cost / 12) *
      calculate_platform_cost_factor (month : ℚ) billing_start_month

/-- Loop body of `calculate_payback_months` (bva.py): starting from a carried
cumulative cash flow and a current month, with a budget of remaining months,
return the first month whose cumulative value is nonnegative; `none` models
the `"N/A"` sentinel returned when the loop exhausts the horizon. -/
def paybackAux
    (annual_benefits annual_platform_cost implementation_delay_months
     benefits_ramp_up_months billing_start_month : ℚ) :
    ℚ → ℕ → ℕ → Option ℕ
  | _, _, 0 => none
  | cumulative_cash_flow, month, remaining + 1 =>
      let cumulative' := cumulative_cash_flow +
        monthlyNetCashFlow annual_benefits annual_platform_cost
          implementation_delay_months benefits_ramp_up_months billing_start_month month
      if 0 ≤ cumulative' then some month
      else
        paybackAux annual_benefits annual_platform_cost implementation_delay_months
          benefits_ramp_up_months billing_start_month cumulative' (month + 1) remaining

/-- Embeds `calculate_payback_months` (bva.py): the cumulative cash flow is
seeded with the negated one-time services cost, then months 1 to
`max_months_eval` are scanned for the first nonnegative cumulative value. -/
def calculate_payback_months
    (annual_benefits annual_platform_cost one_time_services_cost
     implementation_delay_months benefits_ramp_up_months billing_start_month : ℚ)
    (max_months_eval : ℕ) : Option ℕ :=
  paybackAux annual_benefits annual_platform_cost implementation_delay_months
    benefits_ramp_up_months billing_start_month (0 - one_time_services_cost) 1 max_months_eval

/-- Cumulative cash flow through a given month as the specification words
the payback search: seeded with the negated services cost, then one monthly
net flow added per month. -/
def cumulativeCashFlow
    (annual_benefits annual_platform_cost one_time_services_cost
     implementation_delay_months benefits_ramp_up_months billing_start_month : ℚ) :
    ℕ → ℚ
  | 0 => -one_time_services_cost
  | m + 1 =>
      cumulativeCashFlow annual_benefits annual_platform_cost one_time_services_cost
        implementation_delay_months benefits_ramp_up_months billing_start_month m +
      monthlyNetCashFlow annual_benefits annual_platform_cost
        implementation_delay_months benefits_ramp_up_months billing_start_month (m + 1)

/-- Session-state slice read by `run_monte_carlo_simulation` (bva.py).
`discount_rate_input` is the raw session percentage. -/
structure MCInputs where
  alert_reduction_pct : ℚ
  incident_reduction_pct : ℚ
  mttr_improvement_pct : ℚ
  implementation_delay : ℚ
  platform_cost : ℚ
  services_cost : ℚ
  evaluation_years : ℕ
  discount_rate_input : ℚ
  alert_volume : ℚ
  incident_volume : ℚ
  major_incident_volume : ℚ
  cost_per_alert : ℚ
  cost_per_incident : ℚ
  avg_mttr_hours : ℚ
  avg_major_incident_cost : ℚ
  tool_savings : ℚ
  people_efficiency : ℚ
  fte_avoidance : ℚ
  sla_penalty : ℚ
  revenue_growth : ℚ
  capex_savings : ℚ
  opex_savings : ℚ
  benefits_ramp_up : ℚ
deriving DecidableEq

/-- All intermediate values of one Monte Carlo trial, mirroring the local
variables of the loop body in `run_monte_carlo_simulation` (bva.py).  The
six arguments `z0`–`z5` are the standard-normal variates the trial consumes,
in draw order; `np.random.normal(mu, sigma)` is embedded as
`mu + sigma * z`. -/
structure MCTrial where
  sim_alert_reduction : ℚ
  sim_incident_reduction : ℚ
  sim_mttr_improvement : ℚ
  sim_implementation_delay : ℚ
  sim_platform_cost : ℚ
  sim_services_cost : ℚ
  sim_total_benefits : ℚ
  sim_cash_flows : List ℚ
  sim_npv : ℚ
  sim_roi : ℚ
deriving DecidableEq

/-- One trial of `run_monte_carlo_simulation` (bva.py), given the six
standard-normal variates it draws. -/
def mc_trial_full (inp : MCInputs) (z0 z1 z2 z3 z4 z5 : ℚ) : MCTrial :=
  let sim_alert_reduction :=
    max 0 (min 100 (inp.alert_reduction_pct + inp.alert_reduction_pct * (2/10) * z0))
  let sim_incident_reduction :=
    max 0 (min 100 (inp.incident_reduction_pct + inp.incident_reduction_pct * (2/10) * z1))
  let sim_mttr_improvement :=
    max 0 (min 100 (inp.mttr_improvement_pct + inp.mttr_improvement_pct * (2/10) * z2))
  let sim_implementation_delay :=
    max 1 (inp.implementation_delay + inp.implementation_delay * (15/100) * z3)
  let sim_platform_cost :=
    max 0 (inp.platform_cost + inp.platform_cost * (1/10) * z4)
  let sim_services_cost :=
    max 0 (inp.services_cost + inp.services_cost * (15/100) * z5)
  let sim_alert_savings := inp.alert_volume * sim_alert_reduction / 100 * inp.cost_per_alert
  let sim_incident_savings :=
    inp.incident_volume * sim_incident_reduction / 100 * inp.cost_per_incident
  let sim_mttr_savings := inp.major_incident_volume * (sim_mttr_improvement / 100) *
    inp.avg_mttr_hours * inp.avg_major_incident_cost
  let sim_total_benefits := sim_alert_savings + sim_incident_savings + sim_mttr_savings +
    inp.tool_savings + inp.people_efficiency + inp.fte_avoidance +
    inp.sla_penalty + inp.revenue_growth + inp.capex_savings + inp.opex_savings
  let discount_rate := inp.discount_rate_input / 100
  let sim_cash_flows := (List.range' 1 inp.evaluation_years).map (fun year =>
    sim_total_benefits - sim_platform_cost - (if year = 1 then sim_services_cost else 0))
  let sim_npv := (sim_cash_flows.enum.map (fun p =>
    p.2 / (1 + discount_rate) ^ (p.1 + 1))).sum
  let sim_total_costs := sim_platform_cost * (inp.evaluation_years : ℚ) + sim_services_cost
  let sim_roi := if 0 < sim_total_costs then sim_npv / sim_total_costs * 100 else 0
  ⟨sim_alert_reduction, sim_incident_reduction, sim_mttr_improvement,
    sim_implementation_delay, sim_platform_cost, sim_services_cost,
    sim_total_benefits, sim_cash_flows, sim_npv, sim_roi⟩

/-- The pair a trial appends to the result vectors: its ROI and its NPV. -/
def mc_trial (inp : MCInputs) (z0 z1 z2 z3 z4 z5 : ℚ) : ℚ × ℚ :=
  let t := mc_trial_full inp z0 z1 z2 z3 z4 z5
  (t.sim_roi, t.sim_npv)

/-- State of the global NumPy random generator: the active seed and the
number of variates already consumed from that seed's stream. -/
abbrev RngState := ℕ × ℕ

/-- Embeds `run_monte_carlo_simulation` (bva.py).  `gauss seed i` abstracts
the i-th standard-normal variate of the stream determined by `seed` (the
concrete NumPy stream values are external to the repository).  `ambient` is
the generator state left over from whatever ran before; the function's first
action, `np.random.seed(42)`, replaces it with the fixed-seed state, after
which trial `t` consumes variates `6*t` to `6*t+5`.  Returns the per-trial
ROI vector and NPV vector. -/
def run_monte_carlo_simulation (gauss : ℕ → ℕ → ℚ) (_ambient : RngState)
    (inp : MCInputs) (n_simulations : ℕ) : List ℚ × List ℚ :=
  let seeded : RngState := (42, 0)
  let results := (List.range n_simulations).map (fun t =>
    mc_trial inp
      (gauss seeded.1 (seeded.2 + 6 * t))
      (gauss seeded.1 (seeded.2 + 6 * t + 1))
      (gauss seeded.1 (seeded.2 + 6 * t + 2))
      (gauss seeded.1 (seeded.2 + 6 * t + 3))
      (gauss seeded.1 (seeded.2 + 6 * t + 4))
      (gauss seeded.1 (seeded.2 + 6 * t + 5)))
  (results.map Prod.fst, results.map Prod.snd)

/-- Severity levels carried by diagnostic findings in bva.py. -/
inductive Severity where
  | critical
  | high
  | medium
  | low
deriving DecidableEq

/-- The finding categories emitted by `detect_calculation_red_flags`
(bva.py), in source order. -/
inductive FlagKind where
  | highCostPerAlert
  | highCostPerIncident
  | overAllocatedAlertFTEs
  | overAllocatedIncidentFTEs
  | disproportionatelyHighBenefits
  | veryLowAlertUtilization
  | veryLowIncidentUtilization
  | unusualAlertToIncidentRate
deriving DecidableEq

/-- A structured finding: its category and severity (the source also carries
a narrative string, irrelevant to the scoring logic). -/
structure Finding where
  kind : FlagKind
  severity : Severity
deriving DecidableEq

/-- Session-state slice read by `detect_calculation_red_flags` (bva.py). -/
structure SessionDiag where
  cost_per_alert : ℚ
  cost_per_incident : ℚ
  alert_fte_percentage : ℚ
  incident_fte_percentage : ℚ
  total_annual_benefits : ℚ
  alert_ftes : ℚ
  incident_ftes : ℚ
  avg_alert_fte_salary : ℚ
  avg_incident_fte_salary : ℚ
  alert_volume : ℚ
  incident_volume : ℚ
deriving DecidableEq

/-- Embeds `detect_calculation_red_flags` (bva.py): the red-flags list and
the warnings list, with each check appending its finding in source order. -/
def detect_calculation_red_flags (s : SessionDiag) : List Finding × List Finding :=
  let total_fte_costs := s.alert_ftes * s.avg_alert_fte_salary +
    s.incident_ftes * s.avg_incident_fte_salary
  let red_flags : List Finding :=
    (if 100 < s.cost_per_alert then [⟨.highCostPerAlert, .high⟩] else []) ++
    (if 500 < s.cost_per_incident then [⟨.highCostPerIncident, .high⟩] else []) ++
    (if 1 < s.alert_fte_percentage then [⟨.overAllocatedAlertFTEs, .critical⟩] else []) ++
    (if 1 < s.incident_fte_percentage then [⟨.overAllocatedIncidentFTEs, .critical⟩] else []) ++
    (if 0 < total_fte_costs ∧ total_fte_costs * 3 < s.total_annual_benefits then
      [⟨.disproportionatelyHighBenefits, .medium⟩] else [])
  let warnings : List Finding :=
    (if 0 < s.alert_fte_percentage ∧ s.alert_fte_percentage < 1/10 then
      [⟨.veryLowAlertUtilization, .low⟩] else []) ++
    (if 0 < s.incident_fte_percentage ∧ s.incident_fte_percentage < 1/10 then
      [⟨.veryLowIncidentUtilization, .low⟩] else []) ++
    (if 0 < s.alert_volume ∧ 0 < s.incident_volume ∧
        s.alert_volume / s.incident_volume < 2 then
      [⟨.unusualAlertToIncidentRate, .medium⟩] else [])
  (red_flags, warnings)

/-- Embeds the score computation of `show_data_quality_score` (bva.py):
start at 100, subtract 30 per critical red flag, 20 per high red flag, 10
per medium red flag, and 5 per warning, then floor at 0. -/
def data_quality_score (red_flags warnings : List Finding) : ℤ :=
  let score : ℤ := 100
  let score := score -
    30 * ((red_flags.filter (fun f => decide (f.severity = Severity.critical))).length : ℤ)
  let score := score -
    20 * ((red_flags.filter (fun f => decide (f.severity = Severity.high))).length : ℤ)
  let score := score -
    10 * ((red_flags.filter (fun f => decide (f.severity = Severity.medium))).length : ℤ)
  let score := score - 5 * (warnings.length : ℤ)
  max 0 score

/-- C3: for every month ≥ 1 and delay, ramp ≥ 0, the benefit realization
factor is 0 up to the delay, 1 when the ramp is 0 and the month is past the
delay, and otherwise min 1 ((month - delay) / ramp); it always lies in
[0,1] (totality of the Lean function embeds that the source never raises),
and for delay 6, ramp 3 it takes the values 0, 1/3, 1, 1 at months 6, 7, 9,
10. -/
theorem benefit_realization_factor_spec (month delay ramp : ℚ)
    (_h1 : 1 ≤ month) (_h2 : 0 ≤ delay) (_h3 : 0 ≤ ramp) :
    (month ≤ delay → calculate_benefit_realization_factor month delay ramp = 0) ∧
    (ramp = 0 → delay < month → calculate_benefit_realization_factor month delay ramp = 1) ∧
    (0 < ramp → delay < month →
      calculate_benefit_realization_factor month delay ramp = min 1 ((month - delay) / ramp)) ∧
    0 ≤ calculate_benefit_realization_factor month delay ramp ∧
    calculate_benefit_realization_factor month delay ramp ≤ 1 ∧
    calculate_benefit_realization_factor 6 6 3 = 0 ∧
    calculate_benefit_realization_factor 7 6 3 = 1 / 3 ∧
    calculate_benefit_realization_factor 9 6 3 = 1 ∧
    calculate_benefit_realization_factor 10 6 3 = 1 := by
  refine ⟨?_, ?_, ?_, ?_, ?_, by norm_num [calculate_benefit_realization_factor],
    by norm_num [calculate_benefit_realization_factor],
    by norm_num [calculate_benefit_realization_factor],
    by norm_num [calculate_benefit_realization_factor]⟩
  · intro h
    simp [calculate_benefit_realization_factor, h]
  · intro hr hm
    rw [calculate_benefit_realization_factor, if_neg (not_le.mpr hm), hr, add_zero,
      if_neg (not_le.mpr hm)]
  · intro hr hm
    rw [calculate_benefit_realization_factor, if_neg (not_le.mpr hm)]
    by_cases hc : month ≤ delay + ramp
    · rw [if_pos hc]
      have hle : (month - delay) / ramp ≤ 1 := by
        rw [div_le_one hr]; linarith
      rw [min_eq_right hle]
    · rw [if_neg hc]
      push_neg at hc
      have hge : 1 ≤ (month - delay) / ramp := by
        rw [le_div_iff₀ hr]; linarith
      rw [min_eq_left hge]
  · rw [calculate_benefit_realization_factor]
    split_ifs with ha hb
    · exact le_refl 0
    · push_neg at ha
      have hr : 0 < ramp := by linarith
      exact div_nonneg (by linarith) hr.le
    · norm_num
  · rw [calculate_benefit_realization_factor]
    split_ifs with ha hb
    · norm_num
    · push_neg at ha
      have hr : 0 < ramp := by linarith
      rw [div_le_one hr]; linarith
    · exact le_refl 1

/-- Witness for `benefit_realization_factor_spec` at month 7, delay 6,
ramp 3. -/
theorem benefit_realization_factor_spec_witness :
    calculate_benefit_realization_factor 7 6 3 = 1 / 3 ∧
    0 ≤ calculate_benefit_realization_factor 7 6 3 :=
  ⟨(benefit_realization_factor_spec 7 6 3 (by norm_num) (by norm_num)
      (by norm_num)).2.2.2.2.2.2.1,
   (benefit_realization_factor_spec 7 6 3 (by norm_num) (by norm_num)
      (by norm_num)).2.2.2.1⟩

/-- C4: with positive volume and FTEs, `calculate_alert_costs` yields
cost per unit (ftes * salary * pct/100) / volume, utilization equal to
required hours over allocated hours (0 when the allocated hours are 0);
`calculate_incident_costs` is the identical computation; and the concrete
scenario volume 1000, 2 FTEs, 100 pct, 20 minutes, salary 60000 with a
2000-hour working year (8 h/day, 5 d/week, 52 weeks, 10 holidays) gives
cost per unit 120, utilization 1/12 ≈ 0.0833. -/
theorem alert_costs_formulas
    (volume ftes triage_minutes salary hours_per_day days_per_week weeks_per_year
     holiday_sick_days fte_time_pct : ℚ)
    (hv : 0 < volume) (hf : 0 < ftes) :
    (calculate_alert_costs volume ftes triage_minutes salary hours_per_day days_per_week
        weeks_per_year holiday_sick_days fte_time_pct).cost_per_unit =
      ftes * salary * (fte_time_pct / 100) / volume ∧
    (0 < ftes * ((weeks_per_year * days_per_week - holiday_sick_days) * hours_per_day) *
        (fte_time_pct / 100) →
      (calculate_alert_costs volume ftes triage_minutes salary hours_per_day days_per_week
          weeks_per_year holiday_sick_days fte_time_pct).utilization_of_allocated_time =
        (volume * triage_minutes / 60) /
          (ftes * ((weeks_per_year * days_per_week - holiday_sick_days) * hours_per_day) *
            (fte_time_pct / 100))) ∧
    (ftes * ((weeks_per_year * days_per_week - holiday_sick_days) * hours_per_day) *
        (fte_time_pct / 100) = 0 →
      (calculate_alert_costs volume ftes triage_minutes salary hours_per_day days_per_week
          weeks_per_year holiday_sick_days fte_time_pct).utilization_of_allocated_time = 0) ∧
    calculate_incident_costs volume ftes triage_minutes salary hours_per_day days_per_week
        weeks_per_year holiday_sick_days fte_time_pct =
      calculate_alert_costs volume ftes triage_minutes salary hours_per_day days_per_week
        weeks_per_year holiday_sick_days fte_time_pct ∧
    calculate_alert_costs 1000 2 20 60000 8 5 52 10 100 = ⟨120, 120000, 1 / 12, 2000⟩ := by
  have hor : ¬(volume = 0 ∨ ftes = 0) := by
    rintro (h | h)
    · exact hv.ne' h
    · exact hf.ne' h
  refine ⟨?_, ?_, ?_, rfl, by rw [calculate_alert_costs]; norm_num [AllocOut.mk.injEq]⟩
  · rw [calculate_alert_costs, if_neg hor]
    simp only [if_pos hv]
  · intro hpos
    rw [calculate_alert_costs, if_neg hor]
    simp only [if_pos hpos]
  · intro hzero
    rw [calculate_alert_costs, if_neg hor]
    simp [hzero]

/-- Witness for `alert_costs_formulas` at the concrete Scenario 1 input. -/
theorem alert_costs_formulas_witness :
    (calculate_alert_costs 1000 2 20 60000 8 5 52 10 100).cost_per_unit =
      2 * 60000 * ((100 : ℚ) / 100) / 1000 ∧
    calculate_alert_costs 1000 2 20 60000 8 5 52 10 100 = ⟨120, 120000, 1 / 12, 2000⟩ :=
  ⟨(alert_costs_formulas 1000 2 20 60000 8 5 52 10 100 (by norm_num) (by norm_num)).1,
   (alert_costs_formulas 1000 2 20 60000 8 5 52 10 100 (by norm_num)
      (by norm_num)).2.2.2.2⟩

/-- C5: the benefit calculator computes avoided units, remaining units,
reduction savings and efficiency savings by the specified formulas for both
reducible categories, and the Scenario 2 numbers come out as 400 avoided,
48000 reduction savings, 600 remaining and 14400 efficiency savings. -/
theorem baseline_savings_formulas (volume reduction_pct cost_per_unit efficiency_pct : ℚ) :
    avoided_alerts volume reduction_pct = volume * reduction_pct / 100 ∧
    remaining_alerts volume reduction_pct = volume - avoided_alerts volume reduction_pct ∧
    alert_reduction_savings volume reduction_pct cost_per_unit =
      avoided_alerts volume reduction_pct * cost_per_unit ∧
    alert_triage_savings volume reduction_pct cost_per_unit efficiency_pct =
      remaining_alerts volume reduction_pct * cost_per_unit * (efficiency_pct / 100) ∧
    avoided_incidents volume reduction_pct = volume * reduction_pct / 100 ∧
    remaining_incidents volume reduction_pct = volume - avoided_incidents volume reduction_pct ∧
    incident_reduction_savings volume reduction_pct cost_per_unit =
      avoided_incidents volume reduction_pct * cost_per_unit ∧
    incident_triage_savings volume reduction_pct cost_per_unit efficiency_pct =
      remaining_incidents volume reduction_pct * cost_per_unit * (efficiency_pct / 100) ∧
    avoided_alerts 1000 40 = 400 ∧
    alert_reduction_savings 1000 40 120 = 48000 ∧
    remaining_alerts 1000 40 = 600 ∧
    alert_triage_savings 1000 40 120 20 = 14400 := by
  refine ⟨by rw [avoided_alerts]; ring, rfl, rfl, rfl,
    by rw [avoided_incidents]; ring, rfl, rfl, rfl,
    by norm_num [avoided_alerts],
    by norm_num [alert_reduction_savings, avoided_alerts],
    by norm_num [remaining_alerts, avoided_alerts],
    by norm_num [alert_triage_savings, remaining_alert_handling_cost,
      remaining_alerts, avoided_alerts]⟩

/-- C6: when the volume or the FTE count is zero, each of the three
cost-allocation functions returns the all-zero record (insufficient-data
guard) instead of attempting the division. -/
theorem cost_allocation_zero_guard
    (volume ftes triage_minutes salary hours_per_day days_per_week weeks_per_year
     holiday_sick_days fte_time_pct cycles hours_per_cycle : ℚ)
    (h : volume = 0 ∨ ftes = 0) :
    calculate_alert_costs volume ftes triage_minutes salary hours_per_day days_per_week
        weeks_per_year holiday_sick_days fte_time_pct = ⟨0, 0, 0, 0⟩ ∧
    calculate_incident_costs volume ftes triage_minutes salary hours_per_day days_per_week
        weeks_per_year holiday_sick_days fte_time_pct = ⟨0, 0, 0, 0⟩ ∧
    calculate_asset_discovery_costs volume cycles hours_per_cycle ftes salary hours_per_day
        days_per_week weeks_per_year holiday_sick_days fte_time_pct = ⟨0, 0, 0, 0⟩ := by
  rcases h with h | h <;>
    refine ⟨?_, ?_, ?_⟩ <;>
      simp [calculate_alert_costs, calculate_incident_costs,
        calculate_asset_discovery_costs, h]

/-- Witness for `cost_allocation_zero_guard` at zero volume and at zero
FTEs. -/
theorem cost_allocation_zero_guard_witness :
    calculate_alert_costs 0 5 10 60000 8 5 52 10 100 = ⟨0, 0, 0, 0⟩ ∧
    calculate_incident_costs 100 0 10 60000 8 5 52 10 100 = ⟨0, 0, 0, 0⟩ :=
  ⟨(cost_allocation_zero_guard 0 5 10 60000 8 5 52 10 100 4 6 (Or.inl rfl)).1,
   (cost_allocation_zero_guard 100 0 10 60000 8 5 52 10 100 4 6 (Or.inr rfl)).2.1⟩

/-- C7: the Monte Carlo output depends only on the session inputs and the
trial count, not on the ambient random-generator state, because
`np.random.seed(42)` installs the fixed-seed state before any sampling: two
runs with identical inputs (over the same seeded normal stream) return
identical per-trial ROI and NPV vectors. -/
theorem monte_carlo_seed_determinism (gauss : ℕ → ℕ → ℚ) (ambient1 ambient2 : RngState)
    (inp : MCInputs) (n_simulations : ℕ) :
    run_monte_carlo_simulation gauss ambient1 inp n_simulations =
      run_monte_carlo_simulation gauss ambient2 inp n_simulations := rfl

/-- C9: each year's simulated cash flow in a Monte Carlo trial is
`sim_total_benefits - sim_platform_cost` minus the services cost in year 1
only, with no time-phasing; consequently the trial's (ROI, NPV) pair is
invariant under changing the implementation-delay variate `z3`, and the whole
simulation output is invariant under changing the stream at the delay draw
positions (indices congruent to 3 mod 6). -/
theorem monte_carlo_delay_no_effect (inp : MCInputs) (z0 z1 z2 z3 z3' z4 z5 : ℚ)
    (g g' : ℕ → ℕ → ℚ) (ambient1 ambient2 : RngState) (n : ℕ)
    (hg : ∀ s i, i % 6 ≠ 3 → g s i = g' s i) :
    (mc_trial_full inp z0 z1 z2 z3 z4 z5).sim_cash_flows =
      (List.range' 1 inp.evaluation_years).map (fun year =>
        (mc_trial_full inp z0 z1 z2 z3 z4 z5).sim_total_benefits -
        (mc_trial_full inp z0 z1 z2 z3 z4 z5).sim_platform_cost -
        (if year = 1 then (mc_trial_full inp z0 z1 z2 z3 z4 z5).sim_services_cost else 0)) ∧
    mc_trial inp z0 z1 z2 z3 z4 z5 = mc_trial inp z0 z1 z2 z3' z4 z5 ∧
    run_monte_carlo_simulation g ambient1 inp n =
      run_monte_carlo_simulation g' ambient2 inp n := by
  have hz : ∀ a b c x y d e, mc_trial inp a b c x d e = mc_trial inp a b c y d e :=
    fun _ _ _ _ _ _ _ => rfl
  refine ⟨rfl, hz z0 z1 z2 z3 z3' z4 z5, ?_⟩
  simp only [run_monte_carlo_simulation]
  have hmap : ∀ t : ℕ,
      mc_trial inp (g 42 (0 + 6 * t)) (g 42 (0 + 6 * t + 1)) (g 42 (0 + 6 * t + 2))
        (g 42 (0 + 6 * t + 3)) (g 42 (0 + 6 * t + 4)) (g 42 (0 + 6 * t + 5)) =
      mc_trial inp (g' 42 (0 + 6 * t)) (g' 42 (0 + 6 * t + 1)) (g' 42 (0 + 6 * t + 2))
        (g' 42 (0 + 6 * t + 3)) (g' 42 (0 + 6 * t + 4)) (g' 42 (0 + 6 * t + 5)) := by
    intro t
    rw [hg 42 (0 + 6 * t) (by omega), hg 42 (0 + 6 * t + 1) (by omega),
      hg 42 (0 + 6 * t + 2) (by omega), hg 42 (0 + 6 * t + 4) (by omega),
      hg 42 (0 + 6 * t + 5) (by omega)]
    exact hz _ _ _ _ _ _ _
  rw [List.map_congr_left (fun t _ => hmap t)]

/-- Concrete input used by the Monte Carlo witness. -/
def mcExample : MCInputs :=
  ⟨30, 25, 40, 6, 100000, 50000, 3, 10, 50000, 5000, 24, 3, 25, 4, 5000,
    20000, 10000, 0, 0, 0, 0, 0, 3⟩

/-- Witness for `monte_carlo_delay_no_effect`: two runs over the same stream
from different ambient generator states coincide on a concrete input. -/
theorem monte_carlo_delay_no_effect_witness :
    run_monte_carlo_simulation (fun _ _ => 0) (0, 0) mcExample 1 =
      run_monte_carlo_simulation (fun _ _ => 0) (7, 5) mcExample 1 :=
  (monte_carlo_delay_no_effect mcExample 0 0 0 0 1 0 0 (fun _ _ => 0) (fun _ _ => 0)
    (0, 0) (7, 5) 1 (fun _ _ _ => rfl)).2.2

/-- Diagnostic session in which the alert workload utilization is 1.5 and
every other check is in its benign range. -/
def overAllocDiag : SessionDiag :=
  ⟨50, 100, 3 / 2, 1 / 2, 0, 2, 2, 60000, 60000, 1000, 100⟩

/-- The same diagnostic session with the alert utilization back at 0.5, so
no finding fires. -/
def baselineDiag : SessionDiag :=
  ⟨50, 100, 1 / 2, 1 / 2, 0, 2, 2, 60000, 60000, 1000, 100⟩

/-- C8: the data-quality score is 100 minus 30 per critical red flag, 20 per
high red flag, 10 per medium red flag and 5 per warning, floored at 0, and
always lies in [0, 100]; a session whose alert utilization is 1.5 (all other
checks benign) yields exactly one critical over-allocated finding and a
score of 70, exactly 30 below the 100 scored by the same session with
utilization 0.5. -/
theorem data_quality_score_spec :
    (∀ red_flags warnings : List Finding,
      data_quality_score red_flags warnings =
        max 0 (100 -
          30 * ((red_flags.filter
            (fun f => decide (f.severity = Severity.critical))).length : ℤ) -
          20 * ((red_flags.filter
            (fun f => decide (f.severity = Severity.high))).length : ℤ) -
          10 * ((red_flags.filter
            (fun f => decide (f.severity = Severity.medium))).length : ℤ) -
          5 * (warnings.length : ℤ)) ∧
      0 ≤ data_quality_score red_flags warnings ∧
      data_quality_score red_flags warnings ≤ 100) ∧
    detect_calculation_red_flags overAllocDiag =
      ([⟨FlagKind.overAllocatedAlertFTEs, Severity.critical⟩], []) ∧
    data_quality_score (detect_calculation_red_flags overAllocDiag).1
      (detect_calculation_red_flags overAllocDiag).2 = 70 ∧
    data_quality_score (detect_calculation_red_flags baselineDiag).1
      (detect_calculation_red_flags baselineDiag).2 = 100 := by
  have hdet : detect_calculation_red_flags overAllocDiag =
      ([⟨FlagKind.overAllocatedAlertFTEs, Severity.critical⟩], []) := by
    norm_num [detect_calculation_red_flags, overAllocDiag]
  have hbase : detect_calculation_red_flags baselineDiag = ([], []) := by
    norm_num [detect_calculation_red_flags, baselineDiag]
  refine ⟨fun red_flags warnings => ⟨rfl, ?_, ?_⟩, hdet, ?_, ?_⟩
  · exact le_max_left 0 _
  · refine max_le (by norm_num) ?_
    have h30 : (0 : ℤ) ≤ 30 * ((red_flags.filter
        (fun f => decide (f.severity = Severity.critical))).length : ℤ) := by positivity
    have h20 : (0 : ℤ) ≤ 20 * ((red_flags.filter
        (fun f => decide (f.severity = Severity.high))).length : ℤ) := by positivity
    have h10 : (0 : ℤ) ≤ 10 * ((red_flags.filter
        (fun f => decide (f.severity = Severity.medium))).length : ℤ) := by positivity
    have h5 : (0 : ℤ) ≤ 5 * (warnings.length : ℤ) := by positivity
    omega
  · rw [hdet]
    decide
  · rw [hbase]
    decide

/-- C10: `calculate_payback_months` reports payback at month 1 whenever the
seeded cumulative value `-services_cost` plus the month-1 net flow is
already nonnegative; in particular the all-zero configuration (no benefits,
no platform cost, no services cost) reports payback at month 1. -/
theorem payback_month_one
    (annual_benefits annual_platform_cost one_time_services_cost
     implementation_delay_months benefits_ramp_up_months billing_start_month : ℚ)
    (max_months_eval : ℕ) (hN : 1 ≤ max_months_eval)
    (h : 0 ≤ -one_time_services_cost +
      monthlyNetCashFlow annual_benefits annual_platform_cost
        implementation_delay_months benefits_ramp_up_months billing_start_month 1) :
    calculate_payback_months annual_benefits annual_platform_cost one_time_services_cost
      implementation_delay_months benefits_ramp_up_months billing_start_month
      max_months_eval = some 1 ∧
    calculate_payback_months 0 0 0 0 0 1 36 = some 1 := by
  constructor
  · obtain ⟨M, rfl⟩ : ∃ M, max_months_eval = M + 1 :=
      ⟨max_months_eval - 1, by omega⟩
    rw [calculate_payback_months, zero_sub]
    simp only [paybackAux]
    rw [if_pos h]
  · rw [calculate_payback_months, zero_sub]
    simp only [paybackAux]
    rw [if_pos]
    norm_num [monthlyNetCashFlow, calculate_benefit_realization_factor,
      calculate_platform_cost_factor]

/-- Witness for `payback_month_one` in the all-zero configuration. -/
theorem payback_month_one_witness :
    calculate_payback_months 0 0 0 0 0 1 1 = some 1 ∧
    calculate_payback_months 0 0 0 0 0 1 36 = some 1 :=
  payback_month_one 0 0 0 0 0 1 1 (by norm_num)
    (by norm_num [monthlyNetCashFlow, calculate_benefit_realization_factor,
      calculate_platform_cost_factor])

/-- The recursive payback scan, started one month past m with the cumulative
cash flow through month m, returns exactly the first later month within its
budget whose cumulative cash flow is nonnegative. -/
theorem paybackAux_some_spec
    (annual_benefits annual_platform_cost one_time_services_cost
     implementation_delay_months benefits_ramp_up_months billing_start_month : ℚ) :
    ∀ remaining m j,
      paybackAux annual_benefits annual_platform_cost implementation_delay_months
        benefits_ramp_up_months billing_start_month
        (cumulativeCashFlow annual_benefits annual_platform_cost one_time_services_cost
          implementation_delay_months benefits_ramp_up_months billing_start_month m)
        (m + 1) remaining = some j →
      m + 1 ≤ j ∧ j ≤ m + remaining ∧
      0 ≤ cumulativeCashFlow annual_benefits annual_platform_cost one_time_services_cost
        implementation_delay_months benefits_ramp_up_months billing_start_month j ∧
      ∀ k, m + 1 ≤ k → k < j →
        cumulativeCashFlow annual_benefits annual_platform_cost one_time_services_cost
          implementation_delay_months benefits_ramp_up_months billing_start_month k < 0 := by
  intro remaining
  induction remaining with
  | zero =>
    intro m j h
    simp [paybackAux] at h
  | succ r ih =>
    intro m j h
    have h2 : (if 0 ≤ cumulativeCashFlow annual_benefits annual_platform_cost
          one_time_services_cost implementation_delay_months benefits_ramp_up_months
          billing_start_month (m + 1) then some (m + 1)
        else paybackAux annual_benefits annual_platform_cost implementation_delay_months
          benefits_ramp_up_months billing_start_month
          (cumulativeCashFlow annual_benefits annual_platform_cost one_time_services_cost
            implementation_delay_months benefits_ramp_up_months billing_start_month (m + 1))
          (m + 1 + 1) r) = some j := h
    by_cases h0 : 0 ≤ cumulativeCashFlow annual_benefits annual_platform_cost
        one_time_services_cost implementation_delay_months benefits_ramp_up_months
        billing_start_month (m + 1)
    · rw [if_pos h0] at h2
      obtain rfl : m + 1 = j := Option.some.inj h2
      exact ⟨le_refl _, by omega, h0, fun k hk1 hk2 => absurd (lt_of_le_of_lt hk1 hk2)
        (lt_irrefl _)⟩
    · rw [if_neg h0] at h2
      obtain ⟨hj1, hj2, hj3, hj4⟩ := ih (m + 1) j h2
      refine ⟨by omega, by omega, hj3, fun k hk1 hk2 => ?_⟩
      rcases eq_or_lt_of_le hk1 with heq | hlt
      · rw [← heq]
        exact lt_of_not_le h0
      · exact hj4 k (by omega) hk2

/-- The recursive payback scan returns `none` exactly when no month in its
budget has nonnegative cumulative cash flow. -/
theorem paybackAux_none_spec
    (annual_benefits annual_platform_cost one_time_services_cost
     implementation_delay_months benefits_ramp_up_months billing_start_month : ℚ) :
    ∀ remaining m,
      paybackAux annual_benefits annual_platform_cost implementation_delay_months
        benefits_ramp_up_months billing_start_month
        (cumulativeCashFlow annual_benefits annual_platform_cost one_time_services_cost
          implementation_delay_months benefits_ramp_up_months billing_start_month m)
        (m + 1) remaining = none →
      ∀ k, m + 1 ≤ k → k ≤ m + remaining →
        cumulativeCashFlow annual_benefits annual_platform_cost one_time_services_cost
          implementation_delay_months benefits_ramp_up_months billing_start_month k < 0 := by
  intro remaining
  induction remaining with
  | zero =>
    intro m _ k hk1 hk2
    omega
  | succ r ih =>
    intro m h k hk1 hk2
    have h2 : (if 0 ≤ cumulativeCashFlow annual_benefits annual_platform_cost
          one_time_services_cost implementation_delay_months benefits_ramp_up_months
          billing_start_month (m + 1) then some (m + 1)
        else paybackAux annual_benefits annual_platform_cost implementation_delay_months
          benefits_ramp_up_months billing_start_month
          (cumulativeCashFlow annual_benefits annual_platform_cost one_time_services_cost
            implementation_delay_months benefits_ramp_up_months billing_start_month (m + 1))
          (m + 1 + 1) r) = none := h
    by_cases h0 : 0 ≤ cumulativeCashFlow annual_benefits annual_platform_cost
        one_time_services_cost implementation_delay_months benefits_ramp_up_months
        billing_start_month (m + 1)
    · rw [if_pos h0] at h2
      exact absurd h2 (Option.some_ne_none _)
    · rw [if_neg h0] at h2
      rcases eq_or_lt_of_le hk1 with heq | hlt
      · rw [← heq]
        exact lt_of_not_le h0
      · exact ih (m + 1) h2 k (by omega) (by omega)

/-- C2: over the horizon `evaluation_years * 12` (the value the caller
passes as `max_months_eval`), `calculate_payback_months` returns the first
month at which the cumulative cash flow — seeded with the negated services
cost and accumulating `(annual_benefits/12) * benefit_factor(month) -
(annual_platform_cost/12) * cost_factor(month)` per month — is nonnegative,
and returns the `none` sentinel (the source's `"N/A"` string) rather than
raising when no month within the horizon qualifies. -/
theorem payback_months_first_nonneg
    (annual_benefits annual_platform_cost one_time_services_cost
     implementation_delay_months benefits_ramp_up_months billing_start_month : ℚ)
    (evaluation_years : ℕ) :
    (∀ j, calculate_payback_months annual_benefits annual_platform_cost
        one_time_services_cost implementation_delay_months benefits_ramp_up_months
        billing_start_month (evaluation_years * 12) = some j →
      1 ≤ j ∧ j ≤ evaluation_years * 12 ∧
      0 ≤ cumulativeCashFlow annual_benefits annual_platform_cost one_time_services_cost
        implementation_delay_months benefits_ramp_up_months billing_start_month j ∧
      ∀ k, 1 ≤ k → k < j →
        cumulativeCashFlow annual_benefits annual_platform_cost one_time_services_cost
          implementation_delay_months benefits_ramp_up_months billing_start_month k < 0) ∧
    (calculate_payback_months annual_benefits annual_platform_cost
        one_time_services_cost implementation_delay_months benefits_ramp_up_months
        billing_start_month (evaluation_years * 12) = none →
      ∀ k, 1 ≤ k → k ≤ evaluation_years * 12 →
        cumulativeCashFlow annual_benefits annual_platform_cost one_time_services_cost
          implementation_delay_months benefits_ramp_up_months billing_start_month k < 0) := by
  have h0 : calculate_payback_months annual_benefits annual_platform_cost
      one_time_services_cost implementation_delay_months benefits_ramp_up_months
      billing_start_month (evaluation_years * 12) =
    paybackAux annual_benefits annual_platform_cost implementation_delay_months
      benefits_ramp_up_months billing_start_month
      (cumulativeCashFlow annual_benefits annual_platform_cost one_time_services_cost
        implementation_delay_months benefits_ramp_up_months billing_start_month 0)
      (0 + 1) (evaluation_years * 12) := by
    rw [calculate_payback_months, zero_sub]
    rfl
  constructor
  · intro j hj
    obtain ⟨h1, h2, h3, h4⟩ := paybackAux_some_spec annual_benefits annual_platform_cost
      one_time_services_cost implementation_delay_months benefits_ramp_up_months
      billing_start_month (evaluation_years * 12) 0 j (h0 ▸ hj)
    exact ⟨h1, by omega, h3, fun k hk1 hk2 => h4 k hk1 hk2⟩
  · intro hn k hk1 hk2
    exact paybackAux_none_spec annual_benefits annual_platform_cost
      one_time_services_cost implementation_delay_months benefits_ramp_up_months
      billing_start_month (evaluation_years * 12) 0 (h0 ▸ hn) k hk1 (by omega)

/-- Witness for `payback_months_first_nonneg`: annual benefits 120000, no
platform cost, services cost 50000, immediate full realization; the search
over one evaluation year reports month 5, whose cumulative cash flow is
nonnegative while month 4's is still negative. -/
theorem payback_months_first_nonneg_witness :
    0 ≤ cumulativeCashFlow 120000 0 50000 0 0 1 5 ∧
    cumulativeCashFlow 120000 0 50000 0 0 1 4 < 0 :=
  ⟨((payback_months_first_nonneg 120000 0 50000 0 0 1 1).1 5 (by
      norm_num [calculate_payback_months, paybackAux, monthlyNetCashFlow,
        calculate_benefit_realization_factor, calculate_platform_cost_factor])).2.2.1,
   ((payback_months_first_nonneg 120000 0 50000 0 0 1 1).1 5 (by
      norm_num [calculate_payback_months, paybackAux, monthlyNetCashFlow,
        calculate_benefit_realization_factor, calculate_platform_cost_factor])).2.2.2 4
      (by norm_num) (by norm_num)⟩

/-- C1 counterexample: with annual benefits 100000, no delay or ramp,
platform cost 10000, no services cost, 2 evaluation years and a 10 percent
discount rate, the code stores ROI 945/121 (≈7.81, displayed as ≈781%),
while NPV over the discounted total costs times 100 is 900: the ROI the code
reports divides by the UNdiscounted cost total, so the claim's equation
fails whether the stored ratio or its displayed 100-fold is compared. -/
theorem scenario_roi_discounted_counterexample :
    (calculate_scenario_results ⟨100000, 0, 0, 10000, 0, 2, 10⟩ 1 1 1).roi = 945 / 121 ∧
    spec_roi_claimed (calculate_scenario_results ⟨100000, 0, 0, 10000, 0, 2, 10⟩ 1 1 1)
      (10 / 100) = 900 ∧
    (calculate_scenario_results ⟨100000, 0, 0, 10000, 0, 2, 10⟩ 1 1 1).roi * 100 ≠
      spec_roi_claimed (calculate_scenario_results ⟨100000, 0, 0, 10000, 0, 2, 10⟩ 1 1 1)
        (10 / 100) ∧
    (calculate_scenario_results ⟨100000, 0, 0, 10000, 0, 2, 10⟩ 1 1 1).roi ≠
      spec_roi_claimed (calculate_scenario_results ⟨100000, 0, 0, 10000, 0, 2, 10⟩ 1 1 1)
        (10 / 100) := by
  norm_num [calculate_scenario_results, scenarioCashFlowYear, npMean,
    calculate_benefit_realization_factor, calculate_platform_cost_factor,
    List.range', spec_roi_claimed, total_discounted_costs, ratTrunc, Int.tdiv]

/-- C1 amended: for every scenario, the stored ROI is the scenario NPV
divided by the UNdiscounted sum of yearly platform and services costs (the
display layer multiplies by 100), with ROI 0 when that sum is 0 rather than
an error, and the NPV itself is the discounted sum of the yearly net cash
flows. -/
theorem scenario_roi_undiscounted_total_costs (ss : SessionFinance)
    (benefits_multiplier implementation_delay_multiplier billing_start_month : ℚ) :
    let r := calculate_scenario_results ss benefits_multiplier
      implementation_delay_multiplier billing_start_month
    let tco := (r.cash_flows.map (fun cf => cf.platform_cost + cf.services_cost)).sum
    (tco ≠ 0 → r.roi = r.npv / tco) ∧ (tco = 0 → r.roi = 0) ∧
    r.npv = (r.cash_flows.map (fun cf =>
      cf.net_cash_flow / (1 + ss.discount_rate_input / 100) ^ cf.year)).sum := by
  intro r tco
  refine ⟨?_, ?_, rfl⟩
  · intro h
    have e : r.roi = if tco ≠ 0 then r.npv / tco else 0 := rfl
    rw [e, if_pos h]
  · intro h
    have e : r.roi = if tco ≠ 0 then r.npv / tco else 0 := rfl
    rw [e, if_neg (by simp [h])]

/-- Witness for `scenario_roi_undiscounted_total_costs` at the concrete
counterexample input, whose undiscounted cost total 20000 is nonzero. -/
theorem scenario_roi_undiscounted_total_costs_witness :
    (calculate_scenario_results ⟨100000, 0, 0, 10000, 0, 2, 10⟩ 1 1 1).roi =
      (calculate_scenario_results ⟨100000, 0, 0, 10000, 0, 2, 10⟩ 1 1 1).npv /
        ((calculate_scenario_results ⟨100000, 0, 0, 10000, 0, 2, 10⟩ 1 1 1).cash_flows.map
          (fun cf => cf.platform_cost + cf.services_cost)).sum :=
  (scenario_roi_undiscounted_total_costs ⟨100000, 0, 0, 10000, 0, 2, 10⟩ 1 1 1).1
    (by norm_num [calculate_scenario_results, scenarioCashFlowYear, npMean,
      calculate_benefit_realization_factor, calculate_platform_cost_factor,
      List.range', ratTrunc, Int.tdiv])

end BVA
